import Mathlib

/-!
Shallow embedding of the tkmotion closed-loop motion-control simulator
(repository `app_repo`, package `tkmotion`), with theorems checking the
natural-language specification against the code.

Numeric values are embedded as exact rationals (`ℚ`); the Python source
computes with IEEE doubles, whose rounding is not modelled here.  The one
irrational operation in the source, `(L/A) ** 0.5` in the trapezoidal
profile constructor, is embedded as `Rat.sqrt`, which agrees with the exact
square root whenever the radicand is the square of a rational (all concrete
inputs used below are of that form).

Source files embedded (authoritative versions under their subpackages):
  - tkmotion/time/discrete_time.py      (DiscreteTime)
  - tkmotion/prof/motion_profile.py     (MotionProfile family)
  - tkmotion/plant/physical_object.py   (PhysicalObject family)
  - tkmotion/ctrl/controller.py         (Controller family)
  - tkmotion/flow/motion_flow.py        (MotionFlow.execute)
-/

/-- `DiscreteTime`: step size and duration in seconds
(tkmotion/time/discrete_time.py, class DiscreteTime). -/
structure DiscreteTime where
  dt : ℚ
  duration : ℚ
  deriving DecidableEq, Repr

/-- `DiscreteTime.__init__`: reads `time_step_us` (microseconds, divided by
1 000 000) and `duration_s` from the configuration; a missing (or
non-numeric) entry raises, modelled as `Except.error`.  The constructor
performs no positivity check: it assigns the private fields directly and
never goes through the `dt`/`duration` property setters. -/
def mkDiscreteTime (time_step_us : Option ℚ) (duration_s : Option ℚ) :
    Except String DiscreteTime :=
  match time_step_us with
  | none => .error "Missing 'time_step_us' in configuration"
  | some ts =>
    match duration_s with
    | none => .error "Missing 'duration_s' in configuration"
    | some d => .ok { dt := ts / 1000000, duration := d }

/-- `DiscreteTime.dt` property setter: rejects non-positive values. -/
def set_dt (value : ℚ) (T : DiscreteTime) : Except String DiscreteTime :=
  if value ≤ 0 then .error "dt must be a positive number."
  else .ok { T with dt := value }

/-- `DiscreteTime.duration` property setter: rejects non-positive values. -/
def set_duration (value : ℚ) (T : DiscreteTime) : Except String DiscreteTime :=
  if value ≤ 0 then .error "duration must be a positive number."
  else .ok { T with duration := value }

/-- The loop body of `DiscreteTime.get_time_step_generator`:
`t = 0.0; while t <= duration: yield t; t += dt`.  The `fuel` argument
bounds how many loop iterations are unfolded (the Python generator is lazy;
any fuel large enough to reach the loop's exit produces the full yielded
sequence). -/
def timeStepsFrom (dt duration : ℚ) : Nat → ℚ → List ℚ
  | 0, _ => []
  | fuel + 1, t =>
    if t ≤ duration then t :: timeStepsFrom dt duration fuel (t + dt) else []

/-- `DiscreteTime.get_time_step_generator`, run to completion with the given
fuel. -/
def get_time_step_generator (T : DiscreteTime) (fuel : Nat) : List ℚ :=
  timeStepsFrom T.dt T.duration fuel 0

/-- Kinematic state of a physical object
(tkmotion/plant/physical_object.py, class PhysicalObject): each of
acc/vel/pos carries the previously assigned value, archived by the property
setters. -/
structure PhysState where
  acc : ℚ
  prev_acc : ℚ
  vel : ℚ
  prev_vel : ℚ
  pos : ℚ
  prev_pos : ℚ
  deriving DecidableEq, Repr

/-- Post-construction state: `PhysicalObject.__init__` zeroes all six
kinematic fields. -/
def physInit : PhysState :=
  { acc := 0, prev_acc := 0, vel := 0, prev_vel := 0, pos := 0, prev_pos := 0 }

/-- The `acc` property setter: archives the old value into `prev_acc`. -/
def set_acc (value : ℚ) (s : PhysState) : PhysState :=
  { s with prev_acc := s.acc, acc := value }

/-- The `vel` property setter: archives the old value into `prev_vel`. -/
def set_vel (value : ℚ) (s : PhysState) : PhysState :=
  { s with prev_vel := s.vel, vel := value }

/-- The `pos` property setter: archives the old value into `prev_pos`. -/
def set_pos (value : ℚ) (s : PhysState) : PhysState :=
  { s with prev_pos := s.pos, pos := value }

/-- `PhysicalObject.apply_force(force, dt)`:
`self.acc = force / self.mass`;
`self.vel += self.acc * dt`;
`self.pos += self.prev_vel * dt + 0.5 * self.acc * (dt**2)`.
Each assignment goes through the archiving setter; `self.prev_vel` read in
the position update is the velocity archived by the `vel` assignment, i.e.
the pre-step velocity. -/
def PhysicalObject.apply_force (mass force dt : ℚ) (s : PhysState) : PhysState :=
  let s1 := set_acc (force / mass) s
  let s2 := set_vel (s1.vel + s1.acc * dt) s1
  let s3 := set_pos (s2.pos + s2.prev_vel * dt + (1/2) * s2.acc * dt ^ 2) s2
  s3

/-- `PhysicalObject.reset()`: zeroes all six kinematic fields (direct field
assignments, not via the setters). -/
def PhysicalObject.reset (_s : PhysState) : PhysState := physInit

/-- Immutable parameters of `MDSPhysicalObject`
(mass from the base class; damper, spring, spring balance position and the
two friction coefficients from the subclass constructor). -/
structure MDSParams where
  mass : ℚ
  damper : ℚ
  spring : ℚ
  spring_balance_pos : ℚ
  static_friction_coeff : ℚ
  dynamic_friction_coeff : ℚ
  deriving DecidableEq, Repr

/-- Mutable state of `MDSPhysicalObject`: the inherited kinematic state plus
the per-step force bookkeeping fields `_damper_force`, `_spring_force`,
`_net_force`. -/
structure MDSState extends PhysState where
  damper_force : ℚ
  spring_force : ℚ
  net_force : ℚ
  deriving DecidableEq, Repr

/-- Post-construction state of `MDSPhysicalObject`: base constructor zeroes
the kinematics, subclass constructor zeroes the three force fields. -/
def mdsInit : MDSState :=
  { toPhysState := physInit, damper_force := 0, spring_force := 0, net_force := 0 }

/-- `MDSPhysicalObject.apply_force(ex_force, dt)`: computes
`damper_force = -damper * vel` and
`spring_force = -spring * (pos - spring_balance_pos)` from the current
(pre-update) velocity and position, forms
`net_force = ex_force + damper_force + spring_force`, then performs the same
three setter assignments as the base class with the net force. -/
def MDSPhysicalObject.apply_force (p : MDSParams) (ex_force dt : ℚ)
    (s : MDSState) : MDSState :=
  let damper_force := -p.damper * s.vel
  let spring_force := -p.spring * (s.pos - p.spring_balance_pos)
  let net_force := ex_force + damper_force + spring_force
  let k1 := set_acc (net_force / p.mass) s.toPhysState
  let k2 := set_vel (k1.vel + k1.acc * dt) k1
  let k3 := set_pos (k2.pos + k2.prev_vel * dt + (1/2) * k2.acc * dt ^ 2) k2
  { toPhysState := k3, damper_force := damper_force,
    spring_force := spring_force, net_force := net_force }

/-- `MDSPhysicalObject.reset()`: calls the base reset and zeroes the three
force bookkeeping fields. -/
def MDSPhysicalObject.reset (_s : MDSState) : MDSState := mdsInit

/-- Configuration dictionary entries read by `MDSPhysicalObject.__init__`
(`None` models a key absent from the JSON configuration). -/
structure MDSConfig where
  mass_kg : Option ℚ
  damper_Ns_m : Option ℚ
  spring_N_m : Option ℚ
  spring_balance_pos_m : Option ℚ
  static_friction_coeff : Option ℚ
  dynamic_friction_coeff : Option ℚ
  deriving DecidableEq, Repr

/-- `MDSPhysicalObject.__init__`: the base constructor requires `mass_kg`
(KeyError if missing); the subclass then requires, in order,
`damper_Ns_m`, `spring_N_m`, `spring_balance_pos_m`,
`static_friction_coeff` and `dynamic_friction_coeff`, each raising a
KeyError when absent.  No field is defaulted. -/
def mkMDSPhysicalObject (c : MDSConfig) : Except String MDSParams :=
  match c.mass_kg with
  | none => .error "Missing 'mass_kg' in physical object configuration"
  | some m =>
    match c.damper_Ns_m with
    | none => .error "Missing 'damper_Ns_m' in MDS physical object configuration"
    | some d =>
      match c.spring_N_m with
      | none => .error "Missing 'spring_N_m' in MDS physical object configuration"
      | some sp =>
        match c.spring_balance_pos_m with
        | none =>
          .error "Missing 'spring_balance_pos_m' in MDS physical object configuration"
        | some b =>
          match c.static_friction_coeff with
          | none =>
            .error "Missing 'static_friction_coeff' in MDS physical object configuration"
          | some sf =>
            match c.dynamic_friction_coeff with
            | none =>
              .error "Missing 'dynamic_friction_coeff' in MDS physical object configuration"
            | some df =>
              .ok { mass := m, damper := d, spring := sp, spring_balance_pos := b,
                    static_friction_coeff := sf, dynamic_friction_coeff := df }

/-- Errors raised by `TrapezoidalMotionProfile.__init__`
(tkmotion/prof/motion_profile.py). -/
inductive ProfileErr where
  | velocityZeroOrMinus
  | accelerationZeroOrMinus
  | movingLengthZero
  deriving DecidableEq, Repr

/-- Derived fields of a constructed `TrapezoidalMotionProfile`:
`V`, `A`, `L = |length_m|`, `dir = sign(length_m)`, and the acceleration
time `Ta`, total time `T` and constant-velocity time `Tc` as left by the
constructor (after the triangular correction, when applied). -/
structure TrapezoidalMotionProfile where
  V : ℚ
  A : ℚ
  L : ℚ
  dir : ℚ
  Ta : ℚ
  T : ℚ
  Tc : ℚ
  deriving DecidableEq, Repr

/-- `TrapezoidalMotionProfile.__init__`: validates `V > 0`, `A > 0`,
`L ≠ 0`; sets `L = |length_m|`, `dir = np.sign(length_m)`,
`Ta = V/A`, `T = L/V + Ta`, `Tc = T - 2*Ta`; if `Tc < 0`, corrects to the
triangular profile `Ta = (L/A) ** 0.5`, `Tc = 0`, `T = 2*Ta`.  The
square root is embedded as `Rat.sqrt` (exact whenever `L/A` is the square
of a rational). -/
def mkTrapezoidal (max_velocity_m_s acceleration_m_s2 length_m : ℚ) :
    Except ProfileErr TrapezoidalMotionProfile :=
  if max_velocity_m_s ≤ 0 then .error .velocityZeroOrMinus
  else if acceleration_m_s2 ≤ 0 then .error .accelerationZeroOrMinus
  else if length_m = 0 then .error .movingLengthZero
  else
    let V := max_velocity_m_s
    let A := acceleration_m_s2
    let L := |length_m|
    let dir : ℚ := if 0 < length_m then 1 else if length_m < 0 then -1 else 0
    let Ta := V / A
    let T := L / V + Ta
    let Tc := T - 2 * Ta
    if Tc < 0 then
      let Ta' := Rat.sqrt (L / A)
      .ok { V := V, A := A, L := L, dir := dir, Ta := Ta', T := 2 * Ta', Tc := 0 }
    else
      .ok { V := V, A := A, L := L, dir := dir, Ta := Ta, T := T, Tc := Tc }

/-- `TrapezoidalMotionProfile.calculate_cmd_vel_pos(t)`: the four branches
of the source (accelerate / cruise / decelerate / stop), returning
`(velocity, position)`. -/
def TrapezoidalMotionProfile.calculate_cmd_vel_pos
    (p : TrapezoidalMotionProfile) (t : ℚ) : ℚ × ℚ :=
  if t < p.Ta then
    (p.dir * p.A * t, p.dir * ((1/2) * p.A * t ^ 2))
  else if t < p.Ta + p.Tc then
    (p.dir * p.A * p.Ta, p.dir * ((1/2) * p.A * p.Ta ^ 2 + p.V * (t - p.Ta)))
  else if t ≤ p.T then
    let td := t - p.Ta - p.Tc
    (p.dir * p.A * (p.T - t),
     p.dir * ((1/2) * p.A * p.Ta ^ 2 + p.V * p.Tc + p.V * td - (1/2) * p.A * td ^ 2))
  else
    (0, p.dir * p.L)

/-- `MotionProfile.calculate_cmd_vel_pos(t)`: the base ("Null") profile
always returns `(0.0, 0.0)`. -/
def MotionProfile.calculate_cmd_vel_pos (_t : ℚ) : ℚ × ℚ := (0, 0)

/-- Gains of `PIDController` (tkmotion/ctrl/controller.py). -/
structure PIDGains where
  kvp : ℚ
  kvi : ℚ
  kvd : ℚ
  kpp : ℚ
  kpi : ℚ
  kpd : ℚ
  deriving DecidableEq, Repr

/-- Mutable state of `PIDController`: the eight error fields zeroed by
`reset()`, plus `_force` (held by the base `Controller`, set by
`calculate_force`, not touched by `PIDController.reset()`). -/
structure PIDState where
  vel_error : ℚ
  pos_error : ℚ
  vel_error_cumsum : ℚ
  pos_error_cumsum : ℚ
  prev_vel_error : ℚ
  vel_error_diff : ℚ
  prev_pos_error : ℚ
  pos_error_diff : ℚ
  force : ℚ
  deriving DecidableEq, Repr

/-- Post-construction state of `PIDController`: the base constructor sets
`_force = 0.0` and the constructor then calls `reset()`, so everything is
zero. -/
def pidInit : PIDState :=
  { vel_error := 0, pos_error := 0, vel_error_cumsum := 0, pos_error_cumsum := 0,
    prev_vel_error := 0, vel_error_diff := 0, prev_pos_error := 0,
    pos_error_diff := 0, force := 0 }

/-- `PIDController.reset()`: zeroes the eight error fields.  It does not
assign `_force`, so the last computed force survives a reset. -/
def PIDController.reset (s : PIDState) : PIDState :=
  { s with vel_error := 0, pos_error := 0, vel_error_cumsum := 0,
           pos_error_cumsum := 0, prev_vel_error := 0, vel_error_diff := 0,
           prev_pos_error := 0, pos_error_diff := 0 }

/-- `PIDController.calculate_force(t, cmd_vel, cmd_pos, plant_vel,
plant_pos)`: updates the velocity-error block, then the position-error
block, then sums the six gain terms into `_force`.  The returned force is
the `force` field of the result. -/
def PIDController.calculate_force (g : PIDGains)
    (_t cmd_vel cmd_pos plant_vel plant_pos : ℚ) (s : PIDState) : PIDState :=
  let vel_error := cmd_vel - plant_vel
  let vel_error_cumsum := s.vel_error_cumsum + vel_error
  let vel_error_diff := vel_error - s.prev_vel_error
  let prev_vel_error := vel_error
  let pos_error := cmd_pos - plant_pos
  let pos_error_cumsum := s.pos_error_cumsum + pos_error
  let pos_error_diff := pos_error - s.prev_pos_error
  let prev_pos_error := pos_error
  let force := g.kvp * vel_error + g.kvi * vel_error_cumsum
      + g.kvd * vel_error_diff + g.kpp * pos_error
      + g.kpi * pos_error_cumsum + g.kpd * pos_error_diff
  { vel_error := vel_error, pos_error := pos_error,
    vel_error_cumsum := vel_error_cumsum, pos_error_cumsum := pos_error_cumsum,
    prev_vel_error := prev_vel_error, vel_error_diff := vel_error_diff,
    prev_pos_error := prev_pos_error, pos_error_diff := pos_error_diff,
    force := force }

/-- One controller invocation per simulated step: input
`(t, cmd_vel, cmd_pos, plant_vel, plant_pos)`. -/
abbrev PIDInput := ℚ × ℚ × ℚ × ℚ × ℚ

/-- A sequence of `calculate_force` calls from a given state, returning the
sequence of forces it produces (the per-step output observed by the
controller observer). -/
def pidRun (g : PIDGains) : List PIDInput → PIDState → List ℚ
  | [], _ => []
  | (t, cv, cp, pv, pp) :: rest, s =>
    let s' := PIDController.calculate_force g t cv cp pv pp s
    s'.force :: pidRun g rest s'

/-- One row of the per-step data recorded inside `MotionFlow.execute()`:
the time sample, the profile observation (cmd velocity/position), the
controller force, and the physical-object observation
(`PhysicalObjectObserver.observe` appends acc, vel, pos). -/
structure StepRecord where
  t : ℚ
  cmd_vel : ℚ
  cmd_pos : ℚ
  force : ℚ
  obj_acc : ℚ
  obj_vel : ℚ
  obj_pos : ℚ
  deriving DecidableEq, Repr

/-- The per-step loop of `MotionFlow.execute()`
(tkmotion/flow/motion_flow.py, lines 199-220), generic over the motion
profile and controller state machines.  For each time instant `t`, in
source order: append `t`; query the profile for `(cmd_vel, cmd_pos)` and
record them; query the controller for the force (passing the plant's
current velocity and position) and record it; observe the physical object
(its state at elapsed time `t`, i.e. BEFORE this step's update); then call
`apply_force(force, dt)` on the plant.

The profile observation is modelled from the spec (the source calls
`motion_profile.get_observer()`, but no such method exists on any
`MotionProfile` class — see the theorems on the method tables below — so
the recorded cmd pair here is the pair the profile returned, per the spec's
description of the profile observer). -/
def executeSteps {σp σc : Type} (prof : σp → ℚ → (ℚ × ℚ) × σp)
    (ctrl : σc → ℚ → ℚ → ℚ → ℚ → ℚ → ℚ × σc) (mass dt : ℚ) :
    List ℚ → σp → σc → PhysState → List StepRecord
  | [], _, _, _ => []
  | t :: ts, sp, sc, plant =>
    let pr := prof sp t
    let cmd_vel := pr.1.1
    let cmd_pos := pr.1.2
    let co := ctrl sc t cmd_vel cmd_pos plant.vel plant.pos
    let force := co.1
    let r : StepRecord :=
      { t := t, cmd_vel := cmd_vel, cmd_pos := cmd_pos, force := force,
        obj_acc := plant.acc, obj_vel := plant.vel, obj_pos := plant.pos }
    r :: executeSteps prof ctrl mass dt ts pr.2 co.2
        (PhysicalObject.apply_force mass force dt plant)

/-- The profile step function of a trapezoidal profile: stateless,
delegates to `calculate_cmd_vel_pos`. -/
def trapProfStep (p : TrapezoidalMotionProfile) :
    Unit → ℚ → (ℚ × ℚ) × Unit :=
  fun _ t => (p.calculate_cmd_vel_pos t, ())

/-- The controller step function of the base ("Null") controller:
`calculate_force` always returns `0.0`. -/
def nullCtrlStep : Unit → ℚ → ℚ → ℚ → ℚ → ℚ → ℚ × Unit :=
  fun _ _ _ _ _ _ => (0, ())

/-- The classes of the `MotionProfile` family
(tkmotion/prof/motion_profile.py). -/
inductive MotionProfileClass where
  | base
  | trapezoidal
  | impulse
  deriving DecidableEq, Repr

/-- The names of the methods and properties each `MotionProfile` class
defines itself in tkmotion/prof/motion_profile.py, inheritance not yet
applied. -/
def motionProfileOwnMethods : MotionProfileClass → List String
  | .base =>
    ["__init__", "module_version", "config_version", "type", "get_config",
     "calculate_cmd_vel_pos"]
  | .trapezoidal => ["__init__", "calculate_cmd_vel_pos"]
  | .impulse => ["__init__", "calculate_cmd_vel_pos"]

/-- Attribute lookup on a `MotionProfile` instance: the subclass's own
methods, then the base class's (both subclasses inherit directly from
`MotionProfile`). -/
def motionProfileLookup : MotionProfileClass → List String
  | .base => motionProfileOwnMethods .base
  | c => motionProfileOwnMethods c ++ motionProfileOwnMethods .base

/-- The names of the methods and properties the base `Controller` class
defines (tkmotion/ctrl/controller.py, class Controller); every controller
variant inherits these. -/
def controllerBaseMethods : List String :=
  ["__init__", "module_version", "config_version", "type", "vel_error",
   "pos_error", "vel_error_cumsum", "pos_error_cumsum", "vel_error_diff",
   "pos_error_diff", "force", "get_config", "get_observer", "reset",
   "calculate_force"]

/-- The names of the methods and properties the base `PhysicalObject` class
defines (tkmotion/plant/physical_object.py, class PhysicalObject); both
plant variants inherit these. -/
def physicalObjectBaseMethods : List String :=
  ["__init__", "module_version", "config_version", "mass", "acc", "prev_acc",
   "vel", "prev_vel", "pos", "prev_pos", "get_config", "reset", "set_state",
   "get_observer", "apply_force"]

/-- Mutable state of `ImpulseController` (tkmotion/ctrl/controller.py):
its step counter plus the base `Controller`'s `_force`. -/
structure ImpulseCtrlState where
  step_counter : ℕ
  force : ℚ
  deriving DecidableEq, Repr

/-- Post-construction state of `ImpulseController`: the base constructor
sets `_force = 0.0`, the subclass constructor sets `_step_counter = 0`. -/
def impulseCtrlInit : ImpulseCtrlState := { step_counter := 0, force := 0 }

/-- `ImpulseController.reset()`: zeroes the step counter only; `_force` is
not reassigned. -/
def ImpulseController.reset (s : ImpulseCtrlState) : ImpulseCtrlState :=
  { s with step_counter := 0 }

/-- `ImpulseController.calculate_force(t, ...)`: zero while `t < delay_s`;
otherwise the impulse force for the first `on_timestep_count` qualifying
calls, the counter incremented only on those; zero thereafter.  The command
and plant arguments are ignored. -/
def ImpulseController.calculate_force (p_force : ℚ) (on_timestep_count : ℕ)
    (delay_s t : ℚ) (s : ImpulseCtrlState) : ImpulseCtrlState :=
  if t < delay_s then { s with force := 0 }
  else if s.step_counter < on_timestep_count then
    { step_counter := s.step_counter + 1, force := p_force }
  else { s with force := 0 }

/-- A sequence of `ImpulseController.calculate_force` calls at the given
time instants, returning the per-step forces. -/
def impulseRun (p_force : ℚ) (on_timestep_count : ℕ) (delay_s : ℚ) :
    List ℚ → ImpulseCtrlState → List ℚ
  | [], _ => []
  | t :: rest, s =>
    let s' := ImpulseController.calculate_force p_force on_timestep_count
      delay_s t s
    s'.force :: impulseRun p_force on_timestep_count delay_s rest s'

/-- Mutable state of `StepController` and `SinusoidalController`: only the
base `Controller`'s `_force` field. -/
structure BaseCtrlState where
  force : ℚ
  deriving DecidableEq, Repr

/-- Post-construction state: the base constructor sets `_force = 0.0`. -/
def baseCtrlInit : BaseCtrlState := { force := 0 }

/-- `StepController.reset()`: the body is `pass` — nothing is modified,
`_force` included. -/
def StepController.reset (s : BaseCtrlState) : BaseCtrlState := s

/-- `StepController.calculate_force(t, ...)`: zero while `t < delay_s`,
the step force afterwards, unconditionally; no other state. -/
def StepController.calculate_force (s_force delay_s t : ℚ)
    (s : BaseCtrlState) : BaseCtrlState :=
  if t < delay_s then { s with force := 0 } else { s with force := s_force }

/-- A sequence of `StepController.calculate_force` calls. -/
def stepRun (s_force delay_s : ℚ) : List ℚ → BaseCtrlState → List ℚ
  | [], _ => []
  | t :: rest, s =>
    let s' := StepController.calculate_force s_force delay_s t s
    s'.force :: stepRun s_force delay_s rest s'

/-- `SinusoidalController.reset()`: the body is `pass` — nothing is
modified. -/
def SinusoidalController.reset (s : BaseCtrlState) : BaseCtrlState := s

/-- `SinusoidalController.calculate_force(t, ...)`:
`_force = amplitude * np.sin(2 * np.pi * frequency * t)`.  The
transcendental `x ↦ sin(2π·x)` has no exact rational value, so it is taken
as a function parameter `sfn` applied to `frequency * t`; the reset/rerun
theorem below holds for every `sfn`. -/
def SinusoidalController.calculate_force (amplitude : ℚ) (sfn : ℚ → ℚ)
    (frequency t : ℚ) (s : BaseCtrlState) : BaseCtrlState :=
  { s with force := amplitude * sfn (frequency * t) }

/-- A sequence of `SinusoidalController.calculate_force` calls. -/
def sinRun (amplitude : ℚ) (sfn : ℚ → ℚ) (frequency : ℚ) :
    List ℚ → BaseCtrlState → List ℚ
  | [], _ => []
  | t :: rest, s =>
    let s' := SinusoidalController.calculate_force amplitude sfn frequency t s
    s'.force :: sinRun amplitude sfn frequency rest s'

/-- Helper for C5: closed-form velocity and position of a single mass under
a constant force after `n` integration steps from the all-zero state. -/
theorem iterate_apply_force_closed_form (m F dt : ℚ) (n : ℕ) :
    ((PhysicalObject.apply_force m F dt)^[n] physInit).vel = (F / m) * n * dt ∧
    ((PhysicalObject.apply_force m F dt)^[n] physInit).pos
      = (1/2) * (F / m) * (n * dt) ^ 2 := by
  induction n with
  | zero => simp [physInit]
  | succ k ih =>
    obtain ⟨hv, hp⟩ := ih
    have hstep : ∀ s : PhysState, PhysicalObject.apply_force m F dt s =
        { acc := F / m, prev_acc := s.acc, vel := s.vel + F / m * dt,
          prev_vel := s.vel, pos := s.pos + s.vel * dt + 1/2 * (F / m) * dt ^ 2,
          prev_pos := s.pos } := fun s => rfl
    rw [Function.iterate_succ_apply', hstep]
    refine ⟨?_, ?_⟩
    · dsimp only
      rw [hv]
      push_cast
      ring
    · dsimp only
      rw [hv, hp]
      push_cast
      ring

/-- C3: for every `MDSPhysicalObject` state, external force `F` and step
`dt`, `apply_force` computes `damper_force = -damper * vel` and
`spring_force = -spring * (pos - spring_balance_pos)` from the pre-update
velocity and position, forms `net_force = F + damper_force + spring_force`,
and performs exactly one SingleMass-style integration step: the resulting
kinematic state equals what `PhysicalObject.apply_force(net_force, dt)`
produces from the same pre-step state. -/
theorem mds_apply_force_single_integration (p : MDSParams) (F dt : ℚ)
    (s : MDSState) :
    (MDSPhysicalObject.apply_force p F dt s).damper_force = -p.damper * s.vel ∧
    (MDSPhysicalObject.apply_force p F dt s).spring_force
      = -p.spring * (s.pos - p.spring_balance_pos) ∧
    (MDSPhysicalObject.apply_force p F dt s).net_force
      = F + -p.damper * s.vel + -p.spring * (s.pos - p.spring_balance_pos) ∧
    (MDSPhysicalObject.apply_force p F dt s).toPhysState
      = PhysicalObject.apply_force p.mass
          (F + -p.damper * s.vel + -p.spring * (s.pos - p.spring_balance_pos))
          dt s.toPhysState :=
  ⟨rfl, rfl, rfl, rfl⟩

/-- C5: for every mass `m > 0`, constant force `F` and step `dt > 0`,
each `apply_force` call sets `acc = F/m`, then `vel += acc*dt` archiving the
pre-update velocity, then `pos += prev_vel*dt + 0.5*acc*dt^2`; and `n`
repeated calls from the all-zero post-construction state leave
`vel = (F/m)*n*dt` and `pos = 0.5*(F/m)*(n*dt)^2` (exactly, in rational
arithmetic). -/
theorem singlemass_constant_force_kinematics (m F dt : ℚ) (n : ℕ)
    (hm : 0 < m) (hdt : 0 < dt) :
    (∀ s : PhysState, PhysicalObject.apply_force m F dt s =
      { acc := F / m, prev_acc := s.acc, vel := s.vel + (F / m) * dt,
        prev_vel := s.vel, pos := s.pos + s.vel * dt + (1/2) * (F / m) * dt ^ 2,
        prev_pos := s.pos }) ∧
    ((PhysicalObject.apply_force m F dt)^[n] physInit).vel = (F / m) * n * dt ∧
    ((PhysicalObject.apply_force m F dt)^[n] physInit).pos
      = (1/2) * (F / m) * (n * dt) ^ 2 :=
  ⟨fun _ => rfl, iterate_apply_force_closed_form m F dt n⟩

/-- Witness for C5 at `m = 1`, `F = 3`, `dt = 1/2`, `n = 2`:
`vel = 3` and `pos = 3/2`. -/
theorem singlemass_constant_force_kinematics_witness :
    ((PhysicalObject.apply_force 1 3 (1/2))^[2] physInit).vel = 3 ∧
    ((PhysicalObject.apply_force 1 3 (1/2))^[2] physInit).pos = 3/2 := by
  have h := singlemass_constant_force_kinematics 1 3 (1/2) 2 (by norm_num)
    (by norm_num)
  refine ⟨?_, ?_⟩
  · rw [h.2.1]; norm_num
  · rw [h.2.2]; norm_num

/-- C6: every `PIDController.calculate_force` call sets
`vel_error = cmd_vel - plant_vel`, adds it to the cumulative sum, sets
`vel_error_diff` to the raw one-step difference against the previous error
(not divided by `dt`), then updates `prev_vel_error`; identically for the
position terms; and the returned force is the six-term gain combination.
With all gains zero except `kvp = 1`, the force is `cmd_vel - plant_vel`
for every incoming state, i.e. with no memory across steps. -/
theorem pid_calculate_force_law (g : PIDGains) (t cv cp pv pp : ℚ)
    (s : PIDState) :
    (PIDController.calculate_force g t cv cp pv pp s).vel_error = cv - pv ∧
    (PIDController.calculate_force g t cv cp pv pp s).vel_error_cumsum
      = s.vel_error_cumsum + (cv - pv) ∧
    (PIDController.calculate_force g t cv cp pv pp s).vel_error_diff
      = (cv - pv) - s.prev_vel_error ∧
    (PIDController.calculate_force g t cv cp pv pp s).prev_vel_error
      = cv - pv ∧
    (PIDController.calculate_force g t cv cp pv pp s).pos_error = cp - pp ∧
    (PIDController.calculate_force g t cv cp pv pp s).pos_error_cumsum
      = s.pos_error_cumsum + (cp - pp) ∧
    (PIDController.calculate_force g t cv cp pv pp s).pos_error_diff
      = (cp - pp) - s.prev_pos_error ∧
    (PIDController.calculate_force g t cv cp pv pp s).prev_pos_error
      = cp - pp ∧
    (PIDController.calculate_force g t cv cp pv pp s).force
      = g.kvp * (cv - pv) + g.kvi * (s.vel_error_cumsum + (cv - pv))
        + g.kvd * ((cv - pv) - s.prev_vel_error) + g.kpp * (cp - pp)
        + g.kpi * (s.pos_error_cumsum + (cp - pp))
        + g.kpd * ((cp - pp) - s.prev_pos_error) ∧
    (PIDController.calculate_force ⟨1, 0, 0, 0, 0, 0⟩ t cv cp pv pp s).force
      = cv - pv := by
  refine ⟨rfl, rfl, rfl, rfl, rfl, rfl, rfl, rfl, rfl, ?_⟩
  show 1 * (cv - pv) + 0 * (s.vel_error_cumsum + (cv - pv))
      + 0 * ((cv - pv) - s.prev_vel_error) + 0 * (cp - pp)
      + 0 * (s.pos_error_cumsum + (cp - pp))
      + 0 * ((cp - pp) - s.prev_pos_error) = cv - pv
  ring

/-- C7 counterexample: after one `calculate_force` call with all gains 1 on
inputs `(t, cmd_vel, cmd_pos, plant_vel, plant_pos) = (0, 1, 1, 0, 0)`, the
stored force is 6, and `PIDController.reset()` leaves it at 6 rather than
returning it to the post-construction value 0 (the source `reset` assigns
only the eight error fields, never `_force`). -/
theorem pid_reset_keeps_force_cex :
    (PIDController.reset
        (PIDController.calculate_force ⟨1, 1, 1, 1, 1, 1⟩ 0 1 1 0 0 pidInit)).force
      = 6 ∧ (6 : ℚ) ≠ 0 := by
  refine ⟨?_, by norm_num⟩
  show (1 : ℚ) * (1 - 0) + 1 * (pidInit.vel_error_cumsum + (1 - 0))
      + 1 * (1 - 0 - pidInit.prev_vel_error) + 1 * (1 - 0)
      + 1 * (pidInit.pos_error_cumsum + (1 - 0))
      + 1 * (1 - 0 - pidInit.prev_pos_error) = 6
  norm_num [pidInit]

/-- C7 (amended): `reset()` returns every piece of observable state to its
post-construction zero except the base `Controller`'s stored last computed
force, which no controller variant's `reset()` reassigns: PID zeroes only
its eight error fields, Impulse only its step counter, and Step and
Sinusoidal nothing at all.  Since no variant's `calculate_force` reads the
stored force, two runs on identical input sequences separated by an
intervening `reset()` still produce identical force sequences for every
variant.  Physical objects (plain and mass-damper-spring, including the
MDS force bookkeeping) are restored completely. -/
theorem reset_restores_state_amended :
    (∀ s : PIDState, PIDController.reset s = { pidInit with force := s.force }) ∧
    (∀ (g : PIDGains) (ins : List PIDInput) (s : PIDState),
      pidRun g ins (PIDController.reset s) = pidRun g ins pidInit) ∧
    (∀ s : ImpulseCtrlState,
      ImpulseController.reset s = { impulseCtrlInit with force := s.force }) ∧
    (∀ (pf : ℚ) (oc : ℕ) (d : ℚ) (ts : List ℚ) (s : ImpulseCtrlState),
      impulseRun pf oc d ts (ImpulseController.reset s)
        = impulseRun pf oc d ts impulseCtrlInit) ∧
    (∀ s : BaseCtrlState,
      StepController.reset s = { baseCtrlInit with force := s.force }) ∧
    (∀ (sf d : ℚ) (ts : List ℚ) (s : BaseCtrlState),
      stepRun sf d ts (StepController.reset s)
        = stepRun sf d ts baseCtrlInit) ∧
    (∀ s : BaseCtrlState,
      SinusoidalController.reset s = { baseCtrlInit with force := s.force }) ∧
    (∀ (a : ℚ) (sfn : ℚ → ℚ) (f : ℚ) (ts : List ℚ) (s : BaseCtrlState),
      sinRun a sfn f ts (SinusoidalController.reset s)
        = sinRun a sfn f ts baseCtrlInit) ∧
    (∀ s : PhysState, PhysicalObject.reset s = physInit) ∧
    (∀ s : MDSState, MDSPhysicalObject.reset s = mdsInit) := by
  refine ⟨fun s => rfl, fun g ins s => ?_, fun s => rfl, fun pf oc d ts s => ?_,
    fun s => rfl, fun sf d ts s => ?_, fun s => rfl, fun a sfn f ts s => ?_,
    fun s => rfl, fun s => rfl⟩
  · cases ins with
    | nil => rfl
    | cons i rest =>
      obtain ⟨t, cv, cp, pv, pp⟩ := i
      have hcalc : PIDController.calculate_force g t cv cp pv pp
            (PIDController.reset s)
          = PIDController.calculate_force g t cv cp pv pp pidInit := rfl
      show (PIDController.calculate_force g t cv cp pv pp
            (PIDController.reset s)).force
          :: pidRun g rest (PIDController.calculate_force g t cv cp pv pp
            (PIDController.reset s))
        = (PIDController.calculate_force g t cv cp pv pp pidInit).force
          :: pidRun g rest (PIDController.calculate_force g t cv cp pv pp pidInit)
      rw [hcalc]
  · cases ts with
    | nil => rfl
    | cons t rest =>
      have hcalc : ImpulseController.calculate_force pf oc d t
            (ImpulseController.reset s)
          = ImpulseController.calculate_force pf oc d t impulseCtrlInit := rfl
      show (ImpulseController.calculate_force pf oc d t
            (ImpulseController.reset s)).force
          :: impulseRun pf oc d rest (ImpulseController.calculate_force pf oc d t
            (ImpulseController.reset s))
        = (ImpulseController.calculate_force pf oc d t impulseCtrlInit).force
          :: impulseRun pf oc d rest
            (ImpulseController.calculate_force pf oc d t impulseCtrlInit)
      rw [hcalc]
  · cases ts with
    | nil => rfl
    | cons t rest =>
      have hcalc : StepController.calculate_force sf d t (StepController.reset s)
          = StepController.calculate_force sf d t baseCtrlInit := rfl
      show (StepController.calculate_force sf d t (StepController.reset s)).force
          :: stepRun sf d rest
            (StepController.calculate_force sf d t (StepController.reset s))
        = (StepController.calculate_force sf d t baseCtrlInit).force
          :: stepRun sf d rest (StepController.calculate_force sf d t baseCtrlInit)
      rw [hcalc]
  · cases ts with
    | nil => rfl
    | cons t rest =>
      have hcalc : SinusoidalController.calculate_force a sfn f t
            (SinusoidalController.reset s)
          = SinusoidalController.calculate_force a sfn f t baseCtrlInit := rfl
      show (SinusoidalController.calculate_force a sfn f t
            (SinusoidalController.reset s)).force
          :: sinRun a sfn f rest (SinusoidalController.calculate_force a sfn f t
            (SinusoidalController.reset s))
        = (SinusoidalController.calculate_force a sfn f t baseCtrlInit).force
          :: sinRun a sfn f rest
            (SinusoidalController.calculate_force a sfn f t baseCtrlInit)
      rw [hcalc]

/-- C2: no class in the `MotionProfile` family (base/Null, Trapezoidal,
Impulse) defines or inherits a `get_observer` method, while the base
`Controller` and `PhysicalObject` classes both do; hence the call
`self._motion_profile.get_observer()` made at the start of
`MotionFlow.execute()` fails attribute lookup for every configured
motion profile. -/
theorem motion_profile_lacks_get_observer :
    (∀ c : MotionProfileClass, "get_observer" ∉ motionProfileLookup c) ∧
    "get_observer" ∈ controllerBaseMethods ∧
    "get_observer" ∈ physicalObjectBaseMethods := by
  refine ⟨fun c => ?_, by decide, by decide⟩
  cases c <;> decide

/-- C9 counterexample: `DiscreteTime.__init__` accepts
`time_step_us = -1000000`, `duration_s = 1` without error, yielding an
object with `dt = -1 ≤ 0` — construction performs no positivity check
(only the property setters do), so a `DiscreteTime` with non-positive `dt`
can exist after construction. -/
theorem discrete_time_construction_cex :
    mkDiscreteTime (some (-1000000)) (some 1)
      = .ok { dt := -1, duration := 1 } ∧ ((-1 : ℚ) ≤ 0) := by
  refine ⟨?_, by norm_num⟩
  have h : mkDiscreteTime (some (-1000000)) (some 1)
      = .ok { dt := (-1000000 : ℚ) / 1000000, duration := 1 } := rfl
  rw [h]
  norm_num

/-- C9 (amended): construction of a `DiscreteTime` validates only that
`time_step_us` and `duration_s` are present (numeric) configuration
entries, accepting any values including non-positive ones; positivity of
`dt` and `duration` is enforced only by the property setters, which the
constructor does not use. -/
theorem discrete_time_validation_amended :
    (∀ ts d : ℚ, mkDiscreteTime (some ts) (some d)
      = .ok { dt := ts / 1000000, duration := d }) ∧
    (∀ (v : ℚ) (T : DiscreteTime), v ≤ 0 →
      set_dt v T = .error "dt must be a positive number.") ∧
    (∀ (v : ℚ) (T : DiscreteTime), v ≤ 0 →
      set_duration v T = .error "duration must be a positive number.") := by
  refine ⟨fun ts d => rfl, fun v T h => ?_, fun v T h => ?_⟩
  · simp [set_dt, h]
  · simp [set_duration, h]

/-- Witness for C9 (amended): a concrete valid construction and a concrete
rejected setter call. -/
theorem discrete_time_validation_witness :
    mkDiscreteTime (some 10000) (some 2)
      = .ok { dt := 10000 / 1000000, duration := 2 } ∧
    set_dt 0 { dt := 1, duration := 1 }
      = .error "dt must be a positive number." :=
  ⟨discrete_time_validation_amended.1 10000 2,
   discrete_time_validation_amended.2.1 0 { dt := 1, duration := 1 }
     (by norm_num)⟩

/-- C10 counterexample: an MDS configuration with mass, damper and spring
present but `spring_balance_pos_m` absent is rejected with a KeyError-style
configuration error — the balance position is required, not silently
defaulted to 0. -/
theorem mds_balance_required_cex :
    mkMDSPhysicalObject
        { mass_kg := some 1, damper_Ns_m := some 1, spring_N_m := some 1,
          spring_balance_pos_m := none, static_friction_coeff := some 0,
          dynamic_friction_coeff := some 0 }
      = .error "Missing 'spring_balance_pos_m' in MDS physical object configuration" :=
  rfl

/-- C10 (amended): `MDSPhysicalObject` construction succeeds exactly when
all six configuration entries — mass, damper, spring, spring balance
position and both friction coefficients — are present; a missing spring
balance position (like any other missing entry) is a construction error,
and no configuration field is silently defaulted. -/
theorem mds_construction_requires_all_params (c : MDSConfig) :
    (∃ p, mkMDSPhysicalObject c = .ok p) ↔
      (c.mass_kg.isSome ∧ c.damper_Ns_m.isSome ∧ c.spring_N_m.isSome ∧
       c.spring_balance_pos_m.isSome ∧ c.static_friction_coeff.isSome ∧
       c.dynamic_friction_coeff.isSome) := by
  obtain ⟨m, d, sp, b, sf, df⟩ := c
  cases m <;> cases d <;> cases sp <;> cases b <;> cases sf <;> cases df <;>
    simp [mkMDSPhysicalObject]

/-- Helper: with `¬(T < Ta)` and `¬(T < Ta + Tc)`, evaluation of
`calculate_cmd_vel_pos` at the profile's own `T` lands in the deceleration
branch (`T ≤ T` holds), whose formulas this lemma exposes. -/
theorem trap_calc_at_T_formula (Vv Av Lv dv Tav Tv Tcv : ℚ)
    (h1 : ¬ Tv < Tav) (h2 : ¬ Tv < Tav + Tcv) :
    TrapezoidalMotionProfile.calculate_cmd_vel_pos
        ⟨Vv, Av, Lv, dv, Tav, Tv, Tcv⟩ Tv
      = (dv * Av * (Tv - Tv),
         dv * ((1/2) * Av * Tav ^ 2 + Vv * Tcv + Vv * (Tv - Tav - Tcv)
           - (1/2) * Av * (Tv - Tav - Tcv) ^ 2)) := by
  unfold TrapezoidalMotionProfile.calculate_cmd_vel_pos
  simp only
  rw [if_neg h1, if_neg h2, if_pos le_rfl]

/-- Helper: the value `TrapezoidalMotionProfile.__init__` produces on valid
parameters, with the triangular-correction branch explicit. -/
theorem mkTrapezoidal_eq (V A Lm : ℚ) (hV : 0 < V) (hA : 0 < A)
    (hL : Lm ≠ 0) :
    mkTrapezoidal V A Lm =
      (if |Lm| / V + V / A - 2 * (V / A) < 0 then
        Except.ok { V := V, A := A, L := |Lm|,
                    dir := if 0 < Lm then 1 else if Lm < 0 then -1 else 0,
                    Ta := Rat.sqrt (|Lm| / A), T := 2 * Rat.sqrt (|Lm| / A),
                    Tc := 0 }
      else
        Except.ok { V := V, A := A, L := |Lm|,
                    dir := if 0 < Lm then 1 else if Lm < 0 then -1 else 0,
                    Ta := V / A, T := |Lm| / V + V / A,
                    Tc := |Lm| / V + V / A - 2 * (V / A) }) := by
  unfold mkTrapezoidal
  rw [if_neg (not_le.mpr hV), if_neg (not_le.mpr hA), if_neg hL]

/-- C4 counterexample: for `V = 2`, `A = 1`, `L = 1` the constructor takes
the triangular correction (`Tc = -3/2 < 0`), yielding `Ta = 1`, `T = 2`,
and `calculate_cmd_vel_pos(T) = (0, 2)`, not `(0, dir·|L|) = (0, 1)`: the
deceleration-branch position formula uses the configured `V`, not the
actually reached peak velocity `A·Ta`. -/
theorem trapezoid_at_total_time_cex :
    mkTrapezoidal 2 1 1
      = .ok { V := 2, A := 1, L := 1, dir := 1, Ta := 1, T := 2, Tc := 0 } ∧
    TrapezoidalMotionProfile.calculate_cmd_vel_pos
        ⟨2, 1, 1, 1, 1, 2, 0⟩ 2 = (0, 2) ∧
    (2 : ℚ) ≠ 1 * |(1 : ℚ)| := by
  have hsqrt : Rat.sqrt (|(1 : ℚ)| / 1) = 1 := by
    have h1 : |(1 : ℚ)| / 1 = 1 * 1 := by norm_num
    rw [h1, Rat.sqrt_eq]
    norm_num
  refine ⟨?_, ?_, by norm_num⟩
  · have hmk := mkTrapezoidal_eq 2 1 1 (by norm_num) (by norm_num)
      (by norm_num)
    rw [if_pos (by norm_num)] at hmk
    rw [hmk, hsqrt]
    norm_num
  · rw [trap_calc_at_T_formula 2 1 1 1 1 2 0 (by norm_num) (by norm_num)]
    norm_num

/-- C4 (amended): for valid trapezoidal parameters (`V > 0`, `A > 0`,
`L ≠ 0`), `calculate_cmd_vel_pos` at the computed total time `T` returns
`(0, dir·|L|)` exactly when no triangular correction was applied
(`Tc ≥ 0`, i.e. `V² ≤ |L|·A`); in the triangular-corrected case
(`|L|·A < V²`) it instead returns `(0, dir·V·Ta)` with the corrected `Ta`. -/
theorem trapezoid_at_total_time (V A Lm : ℚ) (hV : 0 < V) (hA : 0 < A)
    (hL : Lm ≠ 0) :
    (V ^ 2 ≤ |Lm| * A →
      ∃ p, mkTrapezoidal V A Lm = .ok p ∧
        p.calculate_cmd_vel_pos p.T = (0, p.dir * |Lm|)) ∧
    (|Lm| * A < V ^ 2 →
      ∃ p, mkTrapezoidal V A Lm = .ok p ∧
        p.calculate_cmd_vel_pos p.T = (0, p.dir * V * p.Ta)) := by
  have hVA : (0 : ℚ) < V * A := mul_pos hV hA
  have hLpos : (0 : ℚ) < |Lm| := abs_pos.mpr hL
  have hmk := mkTrapezoidal_eq V A Lm hV hA hL
  have hTc_iff : (|Lm| / V + V / A - 2 * (V / A) < 0) ↔ (|Lm| * A < V ^ 2) := by
    have hrw : |Lm| / V + V / A - 2 * (V / A) = (|Lm| * A - V ^ 2) / (V * A) := by
      field_simp
      ring
    rw [hrw, div_lt_iff₀ hVA, zero_mul, sub_neg]
  constructor
  · intro hcase
    have hTc : ¬ (|Lm| / V + V / A - 2 * (V / A) < 0) := by
      rw [hTc_iff]; exact not_lt.mpr hcase
    rw [if_neg hTc] at hmk
    refine ⟨_, hmk, ?_⟩
    have hLV : (0 : ℚ) < |Lm| / V := div_pos hLpos hV
    have hVAd : (0 : ℚ) < V / A := div_pos hV hA
    have h1 : ¬ (|Lm| / V + V / A < V / A) := by
      intro hcontra; linarith
    have h2 : ¬ (|Lm| / V + V / A
        < V / A + (|Lm| / V + V / A - 2 * (V / A))) := by
      intro hcontra; linarith
    rw [trap_calc_at_T_formula _ _ _ _ _ _ _ h1 h2]
    have hg1 : (if 0 < Lm then (1 : ℚ) else if Lm < 0 then -1 else 0) * A
        * (|Lm| / V + V / A - (|Lm| / V + V / A)) = 0 := by ring
    have hg2 : (1/2) * A * (V / A) ^ 2
          + V * (|Lm| / V + V / A - 2 * (V / A))
          + V * (|Lm| / V + V / A - V / A - (|Lm| / V + V / A - 2 * (V / A)))
          - (1/2) * A * (|Lm| / V + V / A - V / A
              - (|Lm| / V + V / A - 2 * (V / A))) ^ 2
        = |Lm| := by
      field_simp
      ring
    rw [Prod.mk.injEq]
    exact ⟨hg1, by rw [hg2]⟩
  · intro hcase
    have hTc : (|Lm| / V + V / A - 2 * (V / A) < 0) := hTc_iff.mpr hcase
    rw [if_pos hTc] at hmk
    refine ⟨_, hmk, ?_⟩
    have hs : 0 ≤ Rat.sqrt (|Lm| / A) := Rat.sqrt_nonneg _
    have h1 : ¬ (2 * Rat.sqrt (|Lm| / A) < Rat.sqrt (|Lm| / A)) := by
      intro hcontra; linarith
    have h2 : ¬ (2 * Rat.sqrt (|Lm| / A) < Rat.sqrt (|Lm| / A) + 0) := by
      intro hcontra; linarith
    rw [trap_calc_at_T_formula _ _ _ _ _ _ _ h1 h2]
    rw [Prod.mk.injEq]
    constructor
    · ring
    · ring

/-- Witness for C4 (amended): the trapezoidal case at `V = 1`, `A = 2`,
`L = 1` (no correction) and the triangular case at `V = 2`, `A = 1`,
`L = 1`. -/
theorem trapezoid_at_total_time_witness :
    (∃ p, mkTrapezoidal 1 2 1 = .ok p ∧
      p.calculate_cmd_vel_pos p.T = (0, p.dir * |(1 : ℚ)|)) ∧
    (∃ p, mkTrapezoidal 2 1 1 = .ok p ∧
      p.calculate_cmd_vel_pos p.T = (0, p.dir * 2 * p.Ta)) :=
  ⟨(trapezoid_at_total_time 1 2 1 (by norm_num) (by norm_num)
      (by norm_num)).1 (by norm_num),
   (trapezoid_at_total_time 2 1 1 (by norm_num) (by norm_num)
      (by norm_num)).2 (by norm_num)⟩

/-- C8 counterexample: a single-step run with a constant-force controller
(force 5, mass 1, dt 1).  The record emitted for instant `t = 0` carries
`obj_acc = obj_vel = obj_pos = 0` — the plant state BEFORE that instant's
`apply_force` (the source observes the plant and only then applies the
force) — whereas the state after `apply_force` has `acc = 5`.  The claim's
"the plant sample recorded at instant t reflects the plant state after that
instant's apply_force" is therefore false. -/
theorem execute_plant_observation_cex :
    executeSteps (fun (_ : Unit) _ => ((0, 0), ()))
        (fun (_ : Unit) _ _ _ _ _ => ((5 : ℚ), ())) 1 1 [0] () () physInit
      = [{ t := 0, cmd_vel := 0, cmd_pos := 0, force := 5,
           obj_acc := 0, obj_vel := 0, obj_pos := 0 }] ∧
    (PhysicalObject.apply_force 1 5 1 physInit).acc = 5 ∧ (5 : ℚ) ≠ 0 := by
  refine ⟨rfl, ?_, by norm_num⟩
  show (5 : ℚ) / 1 = 5
  norm_num

/-- C8 (amended): for each time instant `t` taken in order, the per-step
actions of `execute()` occur in the order: query the motion profile for
`(cmd_vel, cmd_pos)` and record it, query the controller for the force
(passing the plant's current velocity and position) and record it, record
the plant observation — which therefore reflects the plant state BEFORE
this instant's update — and only then apply the force to the plant with
`dt`. -/
theorem execute_step_order {σp σc : Type} (prof : σp → ℚ → (ℚ × ℚ) × σp)
    (ctrl : σc → ℚ → ℚ → ℚ → ℚ → ℚ → ℚ × σc) (mass dt : ℚ)
    (t : ℚ) (ts : List ℚ) (sp : σp) (sc : σc) (plant : PhysState)
    (cv cp f : ℚ) (sp' : σp) (sc' : σc)
    (hprof : prof sp t = ((cv, cp), sp'))
    (hctrl : ctrl sc t cv cp plant.vel plant.pos = (f, sc')) :
    executeSteps prof ctrl mass dt (t :: ts) sp sc plant
      = { t := t, cmd_vel := cv, cmd_pos := cp, force := f,
          obj_acc := plant.acc, obj_vel := plant.vel, obj_pos := plant.pos } ::
        executeSteps prof ctrl mass dt ts sp' sc'
          (PhysicalObject.apply_force mass f dt plant) := by
  simp only [executeSteps, hprof, hctrl]

/-- Witness for C8 (amended): a concrete one-step instantiation with a
constant-force controller (force 7, mass 2). -/
theorem execute_step_order_witness :
    executeSteps (fun (_ : Unit) _ => ((0, 0), ()))
        (fun (_ : Unit) _ _ _ _ _ => ((7 : ℚ), ())) 2 1 [0] () () physInit
      = [{ t := 0, cmd_vel := 0, cmd_pos := 0, force := 7,
           obj_acc := 0, obj_vel := 0, obj_pos := 0 }] := by
  have h := execute_step_order (fun (_ : Unit) _ => ((0, 0), ()))
    (fun (_ : Unit) _ _ _ _ _ => ((7 : ℚ), ())) 2 1 0 [] () () physInit
    0 0 7 () () rfl rfl
  rw [h]
  rfl

/-- Helper: applying zero force to the resting plant leaves it at rest
(the Null controller's plant never moves). -/
theorem apply_force_zero_at_rest (mass dt : ℚ) :
    PhysicalObject.apply_force mass 0 dt physInit = physInit := by
  simp [PhysicalObject.apply_force, set_acc, set_vel, set_pos, physInit]

/-- Helper: in exact arithmetic, the generator loop for `dt = 1/100`,
`duration = 1` started at `k/100` yields exactly the remaining hundredths
up to and including `1`. -/
theorem gen_hundredths : ∀ (r k : Nat), k + r = 101 →
    timeStepsFrom (1/100) 1 (r + 1) ((k : ℚ) / 100)
      = (List.range r).map (fun j => ((k + j : Nat) : ℚ) / 100) := by
  intro r
  induction r with
  | zero =>
    intro k hk
    have hk101 : k = 101 := by omega
    subst hk101
    simp only [timeStepsFrom]
    rw [if_neg (by norm_num)]
    rfl
  | succ r ih =>
    intro k hk
    have hk100 : k ≤ 100 := by omega
    have hle : ((k : ℚ) / 100) ≤ 1 := by
      rw [div_le_one (by norm_num)]
      exact_mod_cast Nat.le_of_lt_succ (Nat.lt_succ_of_le hk100)
    show (if ((k : ℚ) / 100) ≤ 1 then
        ((k : ℚ) / 100) :: timeStepsFrom (1/100) 1 (r + 1) ((k : ℚ) / 100 + 1/100)
      else []) = _
    rw [if_pos hle]
    have hstep : (k : ℚ) / 100 + 1/100 = (((k + 1 : Nat)) : ℚ) / 100 := by
      push_cast
      ring
    rw [hstep, ih (k + 1) (by omega)]
    rw [List.range_succ_eq_map, List.map_cons, List.map_map]
    have hhead : ((k + 0 : Nat) : ℚ) / 100 = (k : ℚ) / 100 := by
      norm_num
    have hfun : ((fun j => ((k + j : Nat) : ℚ) / 100) ∘ Nat.succ)
        = (fun j => ((k + 1 + j : Nat) : ℚ) / 100) := by
      funext j
      show ((k + (j + 1) : Nat) : ℚ) / 100 = ((k + 1 + j : Nat) : ℚ) / 100
      congr 1
      push_cast
      ring
    rw [hhead, hfun]

/-- Helper: a run with a trapezoidal profile and the Null controller from
the resting plant records, per time instant, the profile's command pair,
zero force, and the resting plant sample. -/
theorem executeSteps_null_run (p : TrapezoidalMotionProfile) (mass dt : ℚ) :
    ∀ ts : List ℚ,
      executeSteps (trapProfStep p) nullCtrlStep mass dt ts () () physInit
        = ts.map (fun t =>
            { t := t, cmd_vel := (p.calculate_cmd_vel_pos t).1,
              cmd_pos := (p.calculate_cmd_vel_pos t).2, force := 0,
              obj_acc := 0, obj_vel := 0, obj_pos := 0 }) := by
  intro ts
  induction ts with
  | nil => rfl
  | cons t rest ih =>
    simp only [executeSteps, trapProfStep, nullCtrlStep, List.map_cons]
    rw [apply_force_zero_at_rest, ih]
    rfl

/-- Helper: the C1 trapezoidal profile (`V = 1`, `A = 2`, `L = 1`, so
`Ta = 1/2`, `T = 3/2`, `Tc = 1/2`) evaluated at `t = 1` is in the
deceleration phase and returns `(1, 3/4)`. -/
theorem c1_profile_at_one :
    TrapezoidalMotionProfile.calculate_cmd_vel_pos
        ⟨1, 2, 1, 1, 1/2, 3/2, 1/2⟩ 1 = (1, 3/4) := by
  unfold TrapezoidalMotionProfile.calculate_cmd_vel_pos
  simp only
  rw [if_neg (by norm_num), if_neg (by norm_num), if_pos (by norm_num)]
  norm_num

/-- Helper: the time sequence of `DiscreteTime(dt = 1/100, duration = 1)`
in exact arithmetic is `0, 1/100, …, 1` (101 samples). -/
theorem c1_generator_closed_form :
    get_time_step_generator { dt := 1/100, duration := 1 } 102
      = (List.range 101).map (fun k : Nat => (k : ℚ) / 100) := by
  have h := gen_hundredths 101 0 (by omega)
  have h0 : ((0 : Nat) : ℚ) / 100 = 0 := by norm_num
  rw [h0] at h
  have hfun : (fun j => ((0 + j : Nat) : ℚ) / 100)
      = fun k : Nat => ((k : Nat) : ℚ) / 100 := by
    funext j
    congr 1
    push_cast
    ring
  rw [hfun] at h
  exact h

/-- Helper: the last record of the C1 scenario run carries `t = 1`,
`cmd_vel = 1`, `cmd_pos = 3/4`, zero force and the resting plant. -/
theorem c1_exec_getLast :
    (executeSteps (trapProfStep ⟨1, 2, 1, 1, 1/2, 3/2, 1/2⟩) nullCtrlStep 1 (1/100)
        (get_time_step_generator { dt := 1/100, duration := 1 } 102)
        () () physInit).getLast?
      = some { t := 1, cmd_vel := 1, cmd_pos := 3/4, force := 0,
               obj_acc := 0, obj_vel := 0, obj_pos := 0 } := by
  rw [executeSteps_null_run, c1_generator_closed_form, List.range_succ,
      List.map_append, List.map_append]
  rw [List.getLast?_append_of_ne_nil _ (by simp)]
  simp only [List.map_cons, List.map_nil, List.getLast?_singleton]
  rw [show ((100 : Nat) : ℚ) / 100 = 1 by norm_num]
  rw [c1_profile_at_one]

/-- C1 counterexample: in the scenario `DiscreteTime(dt = 0.01,
duration = 1.0)`, `Trapezoidal(V = 1, A = 2, L = 1)`, Null controller,
`SingleMass(mass = 1)`, the final recorded `cmd_position` is `3/4`, not
`≈ 1.0` (it is not even within `1/10` of `1`): the profile's total time
`T = 3/2` exceeds the simulated duration `1`, so the trajectory is cut off
mid-deceleration. -/
theorem execute_final_cmd_position_cex :
    (executeSteps (trapProfStep ⟨1, 2, 1, 1, 1/2, 3/2, 1/2⟩) nullCtrlStep 1 (1/100)
        (get_time_step_generator { dt := 1/100, duration := 1 } 102)
        () () physInit).getLast?
      = some { t := 1, cmd_vel := 1, cmd_pos := 3/4, force := 0,
               obj_acc := 0, obj_vel := 0, obj_pos := 0 } ∧
    ¬ (|(3/4 : ℚ) - 1| ≤ 1/10) :=
  ⟨c1_exec_getLast, by norm_num [abs_le]⟩

/-- C1 (amended): in exact arithmetic the scenario's loop visits exactly
101 time samples, `0` through `1` inclusive, and the final recorded
`cmd_position` is `3/4` (with `cmd_velocity = 1`), since the profile's
total time `T = 3/2` exceeds the `1` second duration.  (The run also
presupposes the motion-profile observer that the source lacks — see C2 —
and under IEEE doubles the accumulated `t` overshoots `1.0`, yielding 100
samples; both aspects are outside this exact-arithmetic embedding.) -/
theorem execute_scenario_amended :
    (get_time_step_generator { dt := 1/100, duration := 1 } 102).length = 101 ∧
    (get_time_step_generator { dt := 1/100, duration := 1 } 102).head? = some 0 ∧
    (get_time_step_generator { dt := 1/100, duration := 1 } 102).getLast? = some 1 ∧
    mkTrapezoidal 1 2 1
      = .ok { V := 1, A := 2, L := 1, dir := 1, Ta := 1/2, T := 3/2, Tc := 1/2 } ∧
    (executeSteps (trapProfStep ⟨1, 2, 1, 1, 1/2, 3/2, 1/2⟩) nullCtrlStep 1 (1/100)
        (get_time_step_generator { dt := 1/100, duration := 1 } 102)
        () () physInit).length = 101 ∧
    (executeSteps (trapProfStep ⟨1, 2, 1, 1, 1/2, 3/2, 1/2⟩) nullCtrlStep 1 (1/100)
        (get_time_step_generator { dt := 1/100, duration := 1 } 102)
        () () physInit).getLast?
      = some { t := 1, cmd_vel := 1, cmd_pos := 3/4, force := 0,
               obj_acc := 0, obj_vel := 0, obj_pos := 0 } := by
  have hgen := c1_generator_closed_form
  have hlast_t : (get_time_step_generator { dt := 1/100, duration := 1 } 102).getLast?
      = some 1 := by
    rw [hgen, List.range_succ, List.map_append]
    rw [List.getLast?_append_of_ne_nil _ (by simp)]
    norm_num
  refine ⟨by rw [hgen]; simp, ?_, hlast_t, ?_, ?_, c1_exec_getLast⟩
  · rw [hgen]
    rw [show (101 : Nat) = 100 + 1 from rfl, List.range_succ_eq_map]
    simp
  · have hmk := mkTrapezoidal_eq 1 2 1 (by norm_num) (by norm_num) (by norm_num)
    rw [if_neg (by norm_num)] at hmk
    rw [hmk]
    norm_num
  · rw [executeSteps_null_run, hgen]
    simp
